import Mathlib

/-!
Verification of the cafe-resto-system backend against its specification.

Shallow embedding of the relevant data model and endpoint logic:
  - money is modelled in integer cents (the source uses 2-decimal Decimal,
    whose additions/subtractions are exact);
  - timestamps are modelled as integers (seconds);
  - UUIDs are modelled as naturals drawn from a fresh-id counter;
  - nullable columns are Option; fallible endpoints return Except or carry
    an explicit result field next to the updated database state.
-/

/-- Status of a draft order (models/draft_order.py, DraftStatus). -/
inductive DraftStatus
  | draft | pending | confirmed | rejected | expired
deriving DecidableEq, Repr

/-- Status of a kitchen ticket (models/ticket.py, TicketStatus). -/
inductive TicketStatus
  | new | pending | preparing | ready | inProgress | completed | cancelled | voided
deriving DecidableEq, Repr

/-- Fired status of a ticket line item (models/ticket_line_item.py, FiredStatus). -/
inductive FiredStatus
  | pending | fired | held | voided | completed
deriving DecidableEq, Repr

/-- Order status (models/order.py, OrderStatus). -/
inductive OrderStatus
  | pending | inProgress | partiallyPaid | paid | completed | cancelled | voided
deriving DecidableEq, Repr

/-- Payment status (models/payment.py, PaymentStatus). -/
inductive PaymentStatus
  | pending | processing | completed | failed | refunded
deriving DecidableEq, Repr

/-- Payment method (models/payment.py, PaymentMethod). -/
inductive PaymentMethod
  | cash | card | terminal | qr | split
deriving DecidableEq, Repr

/-- Payment intent status (models/payment_intent.py, PaymentIntentStatus). -/
inductive PaymentIntentStatus
  | pending | inProgress | completed | cancelled | failed
deriving DecidableEq, Repr

/-- Refund status (models/refund.py, RefundStatus). -/
inductive RefundStatus
  | requested | processing | completed | failed
deriving DecidableEq, Repr

/-- Shift status (models/shift.py, ShiftStatus). -/
inductive ShiftStatus
  | opening | active | closing | closed | reconciled
deriving DecidableEq, Repr

/-- Cash drawer event type (only payment_in is exercised by the claims). -/
inductive CashDrawerEventType
  | paymentIn | paymentOut | cashDrop | openingFloat | other
deriving DecidableEq, Repr

/-- Draft order row (models/draft_order.py).  Only scalar columns. -/
structure DraftOrder where
  id : Nat
  tenant_id : Nat
  table_session_id : Nat
  status : DraftStatus
  version : Nat
  locked_by : Option Nat
  locked_at : Option Int
  rejection_reason : Option String
  rejected_by : Option Nat
  rejected_at : Option Int
  confirmed_by : Option Nat
  confirmed_at : Option Int
  order_id : Option Nat
  created_at : Int
  updated_at : Option Int
  expires_at : Int
  special_requests : Option String
deriving DecidableEq, Repr

/-- DraftOrder.can_acquire_lock (models/draft_order.py lines 172-189).

The source returns a `(bool, reason)` pair.  The elapsed-time test is
`(datetime.utcnow() - self.locked_at).total_seconds() > 1800`, guarded by
`if self.locked_at and ...` so a null `locked_at` skips the expiry test. -/
def canAcquireLock (d : DraftOrder) (userId : Nat) (now : Int) : Bool × String :=
  if d.status ≠ DraftStatus.pending then
    (false, "Draft is not in pending status")
  else
    match d.locked_by with
    | some u =>
      if (match d.locked_at with
          | some la => decide (now - la > 1800)
          | none => false) then
        (true, "Lock expired, can acquire")
      else if u = userId then
        (true, "Already locked by this user")
      else
        (false, "Draft is already locked by another user")
    | none => (true, "Can acquire lock")

/-- DraftOrder.acquire_lock (models/draft_order.py lines 274-282). -/
def acquireLock (d : DraftOrder) (userId : Nat) (now : Int) :
    Except String DraftOrder :=
  let r := canAcquireLock d userId now
  if r.1 then
    Except.ok { d with locked_by := some userId, locked_at := some now,
                       version := d.version + 1 }
  else
    Except.error r.2

/-- Kitchen course row (models/kitchen_course.py). -/
structure KitchenCourse where
  id : Nat
  tenant_id : Nat
  name : String
  course_number : Nat
  auto_fire_on_confirm : Bool
deriving DecidableEq, Repr

/-- Menu item row (models/menu_item.py).  The generation endpoint treats a
missing station or course defensively, so both are kept optional here. -/
structure MenuItem where
  id : Nat
  tenant_id : Nat
  name : String
  description : Option String
  station_id : Option Nat
  course_id : Option Nat
deriving DecidableEq, Repr

/-- Table session row; the generation endpoint reads its table number for
display. -/
structure TableSession where
  id : Nat
  tenant_id : Nat
  table_number : Nat
deriving DecidableEq, Repr

/-- User row; the generation endpoint reads the confirming user's email. -/
structure User where
  id : Nat
  tenant_id : Nat
  email : String
deriving DecidableEq, Repr

/-- Draft line item row (models/draft_line_item.py), scalar columns used by
ticket generation. -/
structure DraftLineItem where
  id : Nat
  draft_order_id : Nat
  menu_item_id : Nat
  name : String
  description : Option String
  quantity : Nat
  price_at_order : Int
  line_total : Int
  special_instructions : Option String
  modifiers : Option String
  sort_order : Nat
  parent_line_item_id : Option Nat
deriving DecidableEq, Repr

/-- Kitchen ticket row (models/ticket.py), all scalar columns. -/
structure Ticket where
  id : Nat
  tenant_id : Nat
  draft_order_id : Nat
  table_session_id : Nat
  station_id : Nat
  status : TicketStatus
  course_number : Nat
  course_name : Option String
  is_rush : Bool
  priority_level : Option Nat
  estimated_prep_time_minutes : Option Nat
  prep_started_at : Option Int
  ready_at : Option Int
  completed_at : Option Int
  table_number : Option String
  server_name : Option String
  special_instructions : Option String
  is_held : Bool
  held_reason : Option String
  held_at : Option Int
  print_count : Nat
  last_printed_at : Option Int
  created_at : Int
  updated_at : Option Int
  fired_at : Option Int
  voided_at : Option Int
  voided_by : Option Nat
  voided_reason : Option String
  version : Nat
deriving DecidableEq, Repr

/-- Ticket line item row (models/ticket_line_item.py), scalar columns set by
the generation endpoint. -/
structure TicketLineItem where
  id : Nat
  tenant_id : Nat
  ticket_id : Nat
  menu_item_id : Nat
  name : String
  description : Option String
  quantity : Nat
  price_at_order : Int
  line_total : Int
  course_number : Nat
  course_name : Option String
  fired_status : FiredStatus
  fired_at : Option Int
  held_at : Option Int
  held_reason : Option String
  voided_at : Option Int
  voided_by : Option Nat
  voided_reason : Option String
  special_instructions : Option String
  modifiers : Option String
  sort_order : Nat
  parent_line_item_id : Option Nat
  created_at : Int
  version : Nat
deriving DecidableEq, Repr

/-- Database state seen by the tickets API. -/
structure TicketDB where
  drafts : List DraftOrder
  draftItems : List DraftLineItem
  menuItems : List MenuItem
  courses : List KitchenCourse
  tableSessions : List TableSession
  users : List User
  tickets : List Ticket
  ticketItems : List TicketLineItem
  nextId : Nat
deriving DecidableEq, Repr

/-- HTTP-style errors raised by the endpoints. -/
inductive ApiError
  | notFound | forbidden | conflict | badRequest | serverError
deriving DecidableEq, Repr

/-- Python `a or b` on optional strings: an empty string is falsy. -/
def pyOrOpt (a b : Option String) : Option String :=
  match a with
  | some s => if s = "" then b else some s
  | none => b

/-- Python `a or b` defaulting an optional string to a plain string. -/
def pyOrStr (a : Option String) (b : String) : String :=
  match a with
  | some s => if s = "" then b else s
  | none => b

/-- One station-course group built by generate_tickets (tickets.py lines
175-224): key (station_id, course_id), display and auto-fire data taken from
the kitchen course, and the draft items collected in iteration order. -/
structure StationCourseGroup where
  station_id : Nat
  course_id : Nat
  course_number : Nat
  course_name : String
  auto_fire : Bool
  draft_items : List DraftLineItem
deriving DecidableEq, Repr

/-- Resolve one draft line item to its station, course id and course row,
mirroring the lookups and skip branches of tickets.py lines 178-209. -/
def resolveDraftItem (menuItems : List MenuItem) (courses : List KitchenCourse)
    (it : DraftLineItem) : Option (Nat × Nat × KitchenCourse) :=
  match menuItems.find? (fun m => m.id == it.menu_item_id) with
  | none => none
  | some mi =>
    match mi.station_id with
    | none => none
    | some sid =>
      match mi.course_id with
      | none => none
      | some cid =>
        match courses.find? (fun c => c.id == cid) with
        | none => none
        | some ci => some (sid, cid, ci)

/-- Insert a draft item into the group map (a Python dict iterated in
insertion order), tickets.py lines 211-224. -/
def addToGroups (gs : List StationCourseGroup) (sid cid : Nat)
    (ci : KitchenCourse) (it : DraftLineItem) : List StationCourseGroup :=
  if gs.any (fun g => g.station_id == sid && g.course_id == cid) then
    gs.map (fun g =>
      if g.station_id == sid && g.course_id == cid then
        { g with draft_items := g.draft_items ++ [it] }
      else g)
  else
    gs ++ [{ station_id := sid, course_id := cid,
             course_number := ci.course_number, course_name := ci.name,
             auto_fire := ci.auto_fire_on_confirm, draft_items := [it] }]

/-- Group draft line items by (station_id, course_id), skipping items whose
menu item, station, course or course row is missing (tickets.py 175-224). -/
def buildGroups (menuItems : List MenuItem) (courses : List KitchenCourse)
    (items : List DraftLineItem) : List StationCourseGroup :=
  items.foldl (fun gs it =>
    match resolveDraftItem menuItems courses it with
    | none => gs
    | some (sid, cid, ci) => addToGroups gs sid cid ci it) []

/-- The ticket built for one group (tickets.py lines 242-255). -/
def mkTicket (tenant : Nat) (draft : DraftOrder) (tableNum serverName : Option String)
    (g : StationCourseGroup) (tid : Nat) (now : Int) : Ticket :=
  { id := tid
    tenant_id := tenant
    draft_order_id := draft.id
    table_session_id := draft.table_session_id
    station_id := g.station_id
    status := if g.auto_fire then TicketStatus.pending else TicketStatus.new
    course_number := g.course_number
    course_name := some g.course_name
    is_rush := false
    priority_level := none
    estimated_prep_time_minutes := none
    prep_started_at := none
    ready_at := none
    completed_at := none
    table_number := tableNum
    server_name := serverName
    special_instructions := draft.special_requests
    is_held := false
    held_reason := none
    held_at := none
    print_count := 0
    last_printed_at := none
    created_at := now
    updated_at := none
    fired_at := if g.auto_fire then some now else none
    voided_at := none
    voided_by := none
    voided_reason := none
    version := 0 }

/-- The ticket line item built for one draft item of a group (tickets.py
lines 260-294). -/
def mkTicketLineItem (menuItems : List MenuItem) (tenant tid : Nat)
    (g : StationCourseGroup) (it : DraftLineItem) (liId : Nat) (now : Int) :
    TicketLineItem :=
  let mi := menuItems.find? (fun m => m.id == it.menu_item_id)
  { id := liId
    tenant_id := tenant
    ticket_id := tid
    menu_item_id := it.menu_item_id
    name := it.name
    description := pyOrOpt it.description (mi.bind (fun m => m.description))
    quantity := it.quantity
    price_at_order := it.price_at_order
    line_total := it.line_total
    course_number := g.course_number
    course_name := some g.course_name
    fired_status := if g.auto_fire then FiredStatus.fired else FiredStatus.pending
    fired_at := if g.auto_fire then some now else none
    held_at := none
    held_reason := none
    voided_at := none
    voided_by := none
    voided_reason := none
    special_instructions := it.special_instructions
    modifiers := it.modifiers
    sort_order := it.sort_order
    parent_line_item_id := it.parent_line_item_id
    created_at := now
    version := 0 }

/-- Line items of one group, with fresh ids drawn from startId upward. -/
def mkItemsFor (menuItems : List MenuItem) (tenant tid : Nat)
    (g : StationCourseGroup) (now : Int) :
    List DraftLineItem → Nat → List TicketLineItem
  | [], _ => []
  | it :: rest, n =>
    mkTicketLineItem menuItems tenant tid g it n now ::
      mkItemsFor menuItems tenant tid g now rest (n + 1)

/-- One entry of the generation result: the group it came from, the ticket
row inserted, and its inserted line item rows. -/
structure CreatedTicket where
  group : StationCourseGroup
  ticket : Ticket
  items : List TicketLineItem
deriving DecidableEq, Repr

/-- Errors of generate_tickets (tickets.py lines 145-168). -/
inductive GenError
  | draftNotFound | draftNotConfirmed | noLineItems
deriving DecidableEq, Repr

/-- Result of generate_tickets: the committed database and the created
tickets with their line items. -/
structure GenResult where
  db : TicketDB
  created : List CreatedTicket
deriving DecidableEq, Repr

/-- Insert the ticket and line items of one group (the loop body, tickets.py
lines 230-296). -/
def addGroup (tenant : Nat) (draft : DraftOrder) (tableNum serverName : Option String)
    (menuItems : List MenuItem) (now : Int) (db : TicketDB)
    (g : StationCourseGroup) : TicketDB × CreatedTicket :=
  let t := mkTicket tenant draft tableNum serverName g db.nextId now
  let items := mkItemsFor menuItems tenant t.id g now g.draft_items (db.nextId + 1)
  ({ db with tickets := db.tickets ++ [t]
             ticketItems := db.ticketItems ++ items
             nextId := db.nextId + 1 + items.length },
   { group := g, ticket := t, items := items })

/-- The for-loop of tickets.py lines 230-296: insert the ticket and line
items of each group in turn, collecting the created rows. -/
def genLoop (tenant : Nat) (draft : DraftOrder) (tableNum serverName : Option String)
    (menuItems : List MenuItem) (now : Int) :
    TicketDB → List StationCourseGroup → TicketDB × List CreatedTicket
  | db, [] => (db, [])
  | db, g :: gs =>
    let s := addGroup tenant draft tableNum serverName menuItems now db g
    let r := genLoop tenant draft tableNum serverName menuItems now s.1 gs
    (r.1, s.2 :: r.2)

/-- generate_tickets (tickets.py lines 119-319): verify the draft exists for
the tenant and is confirmed, require line items, group them by station and
course, and insert one ticket (plus line item snapshots) per group.  There
is no check for tickets already generated from the draft. -/
def generateTickets (db : TicketDB) (tenant draftId : Nat) (now : Int) :
    Except GenError GenResult :=
  match db.drafts.find? (fun d => d.id == draftId && d.tenant_id == tenant) with
  | none => Except.error GenError.draftNotFound
  | some draft =>
    if draft.status ≠ DraftStatus.confirmed then
      Except.error GenError.draftNotConfirmed
    else
      let items := db.draftItems.filter (fun it => it.draft_order_id == draft.id)
      if items.isEmpty then
        Except.error GenError.noLineItems
      else
        let tableSession :=
          db.tableSessions.find? (fun ts => ts.id == draft.table_session_id)
        let tableNum := tableSession.map (fun ts => toString ts.table_number)
        let serverName := draft.confirmed_by.bind (fun uid =>
          (db.users.find? (fun u => u.id == uid)).map (fun u => u.email))
        let groups := buildGroups db.menuItems db.courses items
        let r := genLoop tenant draft tableNum serverName db.menuItems now db groups
        Except.ok { db := r.1, created := r.2 }

/-- hold_ticket (tickets.py lines 384-441): look the ticket up in the
tenant, check the echoed version, then mark it held and force its status to
pending. -/
def holdTicket (db : TicketDB) (ticketId tenant : Nat) (version : Nat)
    (reason : String) (now : Int) : Except ApiError (TicketDB × Ticket) :=
  match db.tickets.find? (fun t => t.id == ticketId && t.tenant_id == tenant) with
  | none => Except.error ApiError.notFound
  | some t =>
    if t.version ≠ version then
      Except.error ApiError.conflict
    else
      let t2 := { t with is_held := true
                         held_reason := some reason
                         held_at := some now
                         status := TicketStatus.pending
                         version := t.version + 1 }
      Except.ok
        ({ db with tickets := db.tickets.map (fun u => if u.id == t.id then t2 else u) },
         t2)

/-- bump_ticket (tickets.py lines 322-371): look the ticket up in the
tenant, check the echoed version, then set it to completed.  No check of
the current status is made. -/
def bumpTicket (db : TicketDB) (ticketId tenant : Nat) (version : Nat)
    (now : Int) : Except ApiError (TicketDB × Ticket) :=
  match db.tickets.find? (fun t => t.id == ticketId && t.tenant_id == tenant) with
  | none => Except.error ApiError.notFound
  | some t =>
    if t.version ≠ version then
      Except.error ApiError.conflict
    else
      let t2 := { t with status := TicketStatus.completed
                         completed_at := some now
                         version := t.version + 1 }
      Except.ok
        ({ db with tickets := db.tickets.map (fun u => if u.id == t.id then t2 else u) },
         t2)

/-- Order row (models/order.py), scalar columns used by payments. -/
structure Order where
  id : Nat
  tenant_id : Nat
  table_session_id : Option Nat
  location_id : Nat
  status : OrderStatus
  total_amount : Int
deriving DecidableEq, Repr

/-- Payment row (models/payment.py), scalar columns. -/
structure Payment where
  id : Nat
  tenant_id : Nat
  order_id : Nat
  payment_intent_id : Option Nat
  method : PaymentMethod
  amount : Int
  status : PaymentStatus
  card_last_4 : Option String
  card_holder_name : Option String
  terminal_reference_id : Option String
  terminal_response : Option String
  qr_code : Option String
  qr_provider : Option String
  processed_by_user_id : Option Nat
  created_at : Int
  processed_at : Option Int
  failed_at : Option Int
  refunded_at : Option Int
  version : Nat
deriving DecidableEq, Repr

/-- Payment intent row (models/payment_intent.py), scalar columns. -/
structure PaymentIntent where
  id : Nat
  tenant_id : Nat
  order_id : Nat
  method : PaymentMethod
  status : PaymentIntentStatus
  amount : Int
  tip_amount : Int
  idempotency_key : Option String
  qr_code : Option String
  qr_provider : Option String
  qr_expires_at : Option Int
  initiated_by_user_id : Nat
  processed_at : Option Int
  cancelled_at : Option Int
  failed_at : Option Int
  cancelled_reason : Option String
  failed_reason : Option String
  created_at : Int
  updated_at : Option Int
  version : Nat
deriving DecidableEq, Repr

/-- Cash drawer event row (models/cash_drawer_event.py), columns set by the
cash branch of process_payment. -/
structure CashDrawerEvent where
  id : Nat
  tenant_id : Nat
  order_id : Nat
  payment_id : Nat
  location_id : Nat
  shift_id : Option Nat
  event_type : CashDrawerEventType
  amount : Int
  balance_after : Int
  description : String
  performed_by : Nat
deriving DecidableEq, Repr

/-- Refund row (models/refund.py), columns set by process_refund. -/
structure Refund where
  id : Nat
  tenant_id : Nat
  original_payment_id : Nat
  order_id : Nat
  amount : Int
  reason_code : String
  reason : Option String
  created_by : Nat
  status : RefundStatus
deriving DecidableEq, Repr

/-- Shift row (models/shift.py), scalar columns. -/
structure Shift where
  id : Nat
  tenant_id : Nat
  server_id : Nat
  location_id : Nat
  status : ShiftStatus
  opened_at : Int
  closed_at : Option Int
  reconciled_at : Option Int
  opening_balance : Int
  cash_sales : Int
  card_sales : Int
  tip_sales : Int
  closing_cash_count : Option Int
  card_count : Option Int
  expected_cash : Option Int
  cash_variance : Option Int
  is_over : Option Bool
  total_break_time_minutes : Nat
  break_count : Nat
  opening_notes : Option String
  closing_notes : Option String
  reconciliation_notes : Option String
  opened_by : Nat
  closed_by : Option Nat
  reconciled_by : Option Nat
  version : Nat
deriving DecidableEq, Repr

/-- Webhook log row (webhooks.py lines 26-42). -/
structure WebhookLog where
  id : String
  external_reference : String
  provider : String
  action_type : String
  status : String
  processed_at : Int
deriving DecidableEq, Repr

/-- Database state seen by the payments API and the webhook handler. -/
structure PayDB where
  orders : List Order
  payments : List Payment
  intents : List PaymentIntent
  shifts : List Shift
  cashEvents : List CashDrawerEvent
  refunds : List Refund
  logs : List WebhookLog
  nextId : Nat
deriving DecidableEq, Repr

/-- Request body of POST /payments/process (schemas PaymentCreate). -/
structure PaymentCreate where
  order_id : Nat
  amount : Int
  method : PaymentMethod
  card_last_4 : Option String
  card_holder_name : Option String
  terminal_reference_id : Option String
  qr_code : Option String
  qr_provider : Option String
deriving DecidableEq, Repr

deriving instance DecidableEq for Except

/-- Outcome of process_payment: the committed database next to the HTTP
result.  A raised error can still leave earlier commits in place (the
payment row is committed before the per-method branch runs). -/
structure PayResult where
  db : PayDB
  result : Except ApiError Payment
deriving DecidableEq, Repr

/-- process_payment (payments.py lines 179-311).  Guards: order must exist,
belong to the tenant and be pending or in_progress.  A pending payment row
is committed, then the method branch runs.  Cash completes synchronously
and records a payment_in drawer event; the event is attached to the first
shift of the user in status active when one exists, and that shift's
cash_sales is increased — but a missing active shift does NOT reject the
payment.  Order status is never touched. -/
def processPayment (db : PayDB) (pd : PaymentCreate) (userId tenant : Nat)
    (now : Int) : PayResult :=
  match db.orders.find? (fun o => o.id == pd.order_id) with
  | none => { db := db, result := Except.error ApiError.notFound }
  | some order =>
    if order.tenant_id ≠ tenant then
      { db := db, result := Except.error ApiError.forbidden }
    else if order.status ≠ OrderStatus.pending ∧
            order.status ≠ OrderStatus.inProgress then
      { db := db, result := Except.error ApiError.badRequest }
    else
      let p0 : Payment :=
        { id := db.nextId
          tenant_id := tenant
          order_id := pd.order_id
          payment_intent_id := none
          method := pd.method
          amount := pd.amount
          status := PaymentStatus.pending
          card_last_4 := pd.card_last_4
          card_holder_name := pd.card_holder_name
          terminal_reference_id := pd.terminal_reference_id
          terminal_response := none
          qr_code := pd.qr_code
          qr_provider := some (pyOrStr pd.qr_provider "mercadopago")
          processed_by_user_id := some userId
          created_at := now
          processed_at := none
          failed_at := none
          refunded_at := none
          version := 0 }
      let db1 := { db with payments := db.payments ++ [p0], nextId := db.nextId + 1 }
      match pd.method with
      | PaymentMethod.cash =>
        let p1 := { p0 with status := PaymentStatus.completed, processed_at := some now }
        let ev0 : CashDrawerEvent :=
          { id := db1.nextId
            tenant_id := tenant
            order_id := p1.order_id
            payment_id := p1.id
            location_id := order.location_id
            shift_id := none
            event_type := CashDrawerEventType.paymentIn
            amount := p1.amount
            balance_after := p1.amount
            description := "Payment in for order"
            performed_by := userId }
        let activeShift := db1.shifts.find? (fun s =>
          s.server_id == userId && s.status == ShiftStatus.active)
        let ev := match activeShift with
          | some sh => { ev0 with shift_id := some sh.id }
          | none => ev0
        let shifts2 := match activeShift with
          | some sh => db1.shifts.map (fun s =>
              if s.id == sh.id then { s with cash_sales := s.cash_sales + p1.amount } else s)
          | none => db1.shifts
        let db2 := { db1 with
          payments := db1.payments.map (fun q => if q.id == p1.id then p1 else q)
          shifts := shifts2
          cashEvents := db1.cashEvents ++ [ev]
          nextId := db1.nextId + 1 }
        { db := db2, result := Except.ok p1 }
      | PaymentMethod.terminal =>
        let p1 := { p0 with status := PaymentStatus.processing }
        let db2 := { db1 with
          payments := db1.payments.map (fun q => if q.id == p1.id then p1 else q) }
        { db := db2, result := Except.ok p1 }
      | PaymentMethod.qr => { db := db1, result := Except.ok p0 }
      | PaymentMethod.card => { db := db1, result := Except.ok p0 }
      | PaymentMethod.split =>
        { db := db1, result := Except.error ApiError.badRequest }

/-- process_refund (payments.py lines 437-496).  Guards: payment exists in
the tenant, is completed, and no completed refund references it.  On
success one Refund row in status requested is committed; the payment row
itself is left untouched (its status stays completed). -/
def processRefund (db : PayDB) (paymentId tenant : Nat) (amount : Int)
    (reasonCode : String) (reason : Option String) (userId : Nat) :
    PayDB × Except ApiError Refund :=
  match db.payments.find? (fun p => p.id == paymentId) with
  | none => (db, Except.error ApiError.notFound)
  | some p =>
    if p.tenant_id ≠ tenant then
      (db, Except.error ApiError.forbidden)
    else if p.status ≠ PaymentStatus.completed then
      (db, Except.error ApiError.badRequest)
    else
      match db.refunds.find? (fun r =>
          r.original_payment_id == paymentId && r.status == RefundStatus.completed) with
      | some _ => (db, Except.error ApiError.badRequest)
      | none =>
        let r : Refund :=
          { id := db.nextId
            tenant_id := tenant
            original_payment_id := paymentId
            order_id := p.order_id
            amount := amount
            reason_code := reasonCode
            reason := reason
            created_by := userId
            status := RefundStatus.requested }
        ({ db with refunds := db.refunds ++ [r], nextId := db.nextId + 1 },
         Except.ok r)

/-- PaymentIntent.transition_to_completed (models/payment_intent.py lines
241-248).  The guard `if not self.can_transition_to(...)` tests a non-empty
tuple, which is always truthy, so the transition is applied
unconditionally. -/
def transitionToCompleted (i : PaymentIntent) (now : Int) : PaymentIntent :=
  { i with status := PaymentIntentStatus.completed
           processed_at := some now
           updated_at := some now
           version := i.version + 1 }

/-- PaymentIntent.transition_to_cancelled (same vacuous guard). -/
def transitionToCancelled (i : PaymentIntent) (reason : String) (now : Int) :
    PaymentIntent :=
  { i with status := PaymentIntentStatus.cancelled
           cancelled_at := some now
           cancelled_reason := some reason
           updated_at := some now
           version := i.version + 1 }

/-- PaymentIntent.transition_to_failed (same vacuous guard). -/
def transitionToFailed (i : PaymentIntent) (reason : String) (now : Int) :
    PaymentIntent :=
  { i with status := PaymentIntentStatus.failed
           failed_at := some now
           failed_reason := some reason
           updated_at := some now
           version := i.version + 1 }

/-- Sum of completed payments of an order
(webhooks.py calculate_order_paid_amount, lines 310-323). -/
def sumCompletedPayments (payments : List Payment) (orderId : Nat) : Int :=
  ((payments.filter (fun p => p.order_id == orderId &&
      p.status == PaymentStatus.completed)).map (fun p => p.amount)).sum

/-- process_successful_payment (webhooks.py lines 177-253): complete (or
create) the qr Payment of the intent, complete the intent, and recompute
the order status from the sum of completed payments unless the order is
already paid. -/
def processSuccessfulPayment (db : PayDB) (intent : PaymentIntent)
    (qrData : Option String) (now : Int) : PayDB :=
  let found := db.payments.find? (fun p =>
    p.payment_intent_id == some intent.id && p.method == PaymentMethod.qr)
  let step : List Payment × Nat := match found with
    | some p =>
      let p2 := { p with status := PaymentStatus.completed
                         processed_at := some now
                         qr_code := qrData }
      (db.payments.map (fun q => if q.id == p.id then p2 else q), db.nextId)
    | none =>
      let p2 : Payment :=
        { id := db.nextId
          tenant_id := intent.tenant_id
          order_id := intent.order_id
          payment_intent_id := some intent.id
          method := PaymentMethod.qr
          amount := intent.amount
          status := PaymentStatus.completed
          card_last_4 := none
          card_holder_name := none
          terminal_reference_id := none
          terminal_response := none
          qr_code := qrData
          qr_provider := some "mercadopago"
          processed_by_user_id := none
          created_at := now
          processed_at := some now
          failed_at := none
          refunded_at := none
          version := 0 }
      (db.payments ++ [p2], db.nextId + 1)
  let payments2 := step.1
  let intents2 := db.intents.map (fun j =>
    if j.id == intent.id then transitionToCompleted j now else j)
  let orders2 :=
    match db.orders.find? (fun o => o.id == intent.order_id) with
    | none => db.orders
    | some o =>
      if o.status ≠ OrderStatus.paid then
        let totalPaid := sumCompletedPayments payments2 intent.order_id
        let newStatus := if totalPaid ≥ o.total_amount then OrderStatus.paid
                         else OrderStatus.inProgress
        db.orders.map (fun q => if q.id == o.id then { q with status := newStatus } else q)
      else db.orders
  { db with payments := payments2, intents := intents2, orders := orders2,
            nextId := step.2 }

/-- process_cancelled_payment (webhooks.py lines 256-280). -/
def processCancelledPayment (db : PayDB) (intent : PaymentIntent)
    (reason : String) (now : Int) : PayDB :=
  let payments2 := match db.payments.find? (fun p =>
      p.payment_intent_id == some intent.id && p.method == PaymentMethod.qr) with
    | some p =>
      db.payments.map (fun q =>
        if q.id == p.id then
          { q with status := PaymentStatus.failed, failed_at := some now }
        else q)
    | none => db.payments
  let intents2 := db.intents.map (fun j =>
    if j.id == intent.id then transitionToCancelled j reason now else j)
  { db with payments := payments2, intents := intents2 }

/-- process_failed_payment (webhooks.py lines 283-307). -/
def processFailedPayment (db : PayDB) (intent : PaymentIntent)
    (reason : String) (now : Int) : PayDB :=
  let payments2 := match db.payments.find? (fun p =>
      p.payment_intent_id == some intent.id && p.method == PaymentMethod.qr) with
    | some p =>
      db.payments.map (fun q =>
        if q.id == p.id then
          { q with status := PaymentStatus.failed, failed_at := some now }
        else q)
    | none => db.payments
  let intents2 := db.intents.map (fun j =>
    if j.id == intent.id then transitionToFailed j reason now else j)
  { db with payments := payments2, intents := intents2 }

/-- A verified Mercado Pago notification as seen by the handler: the
verification verdict and the fields read out of the payload, plus the
status the provider API would report when queried for an unknown status
(none models the API call raising). -/
structure MpNotification where
  valid : Bool
  action_type : String
  external_reference : String
  mp_order_id : String
  mp_status : String
  qr_data : Option String
  api_status : Option String
deriving DecidableEq, Repr

/-- Responses of the webhook handler (webhooks.py). -/
inductive WebhookResponse
  | invalid
  | duplicate
  | intentNotFound
  | statusOnly (s : String)
  | processed
deriving DecidableEq, Repr

/-- Predicate of the idempotency lookup (webhooks.py lines 90-95). -/
def logMatches (ref : String) (l : WebhookLog) : Bool :=
  l.external_reference == ref && l.provider == "mercadopago"

/-- Append the processed-webhook log row (webhooks.py lines 162-172). -/
def logWebhook (db : PayDB) (n : MpNotification) (now : Int) : PayDB :=
  { db with logs := db.logs ++
      [{ id := "mp_" ++ n.external_reference ++ "_" ++ toString now
         external_reference := n.external_reference
         provider := "mercadopago"
         action_type := n.action_type
         status := n.mp_status
         processed_at := now }] }

/-- mercadopago_webhook (webhooks.py lines 45-174): verify, consult the
webhook log for (external_reference, provider), locate the qr PaymentIntent
by idempotency_key, dispatch on the reported status, and append a log row.
The unknown-status path that finds the order not paid returns early WITHOUT
logging; an API failure during that query falls through to the log. -/
def mpWebhook (db : PayDB) (n : MpNotification) (now : Int) :
    PayDB × WebhookResponse :=
  if ¬ n.valid then (db, WebhookResponse.invalid)
  else
    match db.logs.find? (logMatches n.external_reference) with
    | some _ => (db, WebhookResponse.duplicate)
    | none =>
      match db.intents.find? (fun i =>
          i.idempotency_key == some n.external_reference &&
          i.method == PaymentMethod.qr) with
      | none => (db, WebhookResponse.intentNotFound)
      | some intent =>
        if n.mp_status = "paid" ∨ n.mp_status = "closed" then
          (logWebhook (processSuccessfulPayment db intent n.qr_data now) n now,
           WebhookResponse.processed)
        else if n.mp_status = "cancelled" then
          (logWebhook
            (processCancelledPayment db intent "Customer cancelled payment" now)
            n now,
           WebhookResponse.processed)
        else if n.mp_status = "expired" then
          (logWebhook (processFailedPayment db intent "Payment expired" now) n now,
           WebhookResponse.processed)
        else
          match n.api_status with
          | some s =>
            if s = "paid" then
              (logWebhook (processSuccessfulPayment db intent n.qr_data now) n now,
               WebhookResponse.processed)
            else (db, WebhookResponse.statusOnly s)
          | none => (logWebhook db n now, WebhookResponse.processed)

/-- Number of webhook log rows for one (external_reference, provider)
tuple. -/
def countLogs (logs : List WebhookLog) (ref : String) : Nat :=
  (logs.filter (logMatches ref)).length

/-- Shift.record_cash_count (models/shift.py lines 254-269): permitted only
in closing or closed, stores the counts and derives expected cash,
variance and the over flag. -/
def recordCashCount (s : Shift) (closingCashCount cardCount : Int) :
    Except String Shift :=
  if s.status ≠ ShiftStatus.closing ∧ s.status ≠ ShiftStatus.closed then
    Except.error "Must be in closing or closed state to record counts"
  else
    let expected := s.opening_balance + s.cash_sales
    let variance := closingCashCount - expected
    Except.ok { s with closing_cash_count := some closingCashCount
                       card_count := some cardCount
                       expected_cash := some expected
                       cash_variance := some variance
                       is_over := some (decide (variance > 0)) }

/-- reconcile_shift (shifts.py lines 238-302): tenant check, shift must be
closed, then expected cash / variance / over flag are recomputed from the
recorded closing cash count and the shift moves to reconciled.  A missing
closing cash count makes the arithmetic raise, committing nothing. -/
def reconcileShiftApi (s : Shift) (tenant userId : Nat) (now : Int) :
    Except ApiError Shift :=
  if s.tenant_id ≠ tenant then Except.error ApiError.forbidden
  else if s.status ≠ ShiftStatus.closed then Except.error ApiError.badRequest
  else
    match s.closing_cash_count with
    | none => Except.error ApiError.serverError
    | some ccc =>
      let expected := s.opening_balance + s.cash_sales
      let variance := ccc - expected
      Except.ok { s with expected_cash := some expected
                         cash_variance := some variance
                         is_over := some (decide (variance > 0))
                         reconciled_by := some userId
                         reconciled_at := some now
                         status := ShiftStatus.reconciled }

/-- Number of tickets of one draft order. -/
def ticketsForDraft (db : TicketDB) (draftId : Nat) : Nat :=
  (db.tickets.filter (fun t => t.draft_order_id == draftId)).length

/-- Concrete confirmed draft used for evaluation. -/
def d1 : DraftOrder :=
  { id := 1, tenant_id := 1, table_session_id := 1,
    status := DraftStatus.confirmed, version := 2, locked_by := none,
    locked_at := none, rejection_reason := none, rejected_by := none,
    rejected_at := none, confirmed_by := none, confirmed_at := some 0,
    order_id := none, created_at := 0, updated_at := none, expires_at := 7200,
    special_requests := none }

/-- Concrete draft line item of d1. -/
def li1 : DraftLineItem :=
  { id := 2, draft_order_id := 1, menu_item_id := 3, name := "Coffee",
    description := none, quantity := 1, price_at_order := 500,
    line_total := 500, special_instructions := none, modifiers := none,
    sort_order := 0, parent_line_item_id := none }

/-- Concrete menu item routed to station 4, course 5. -/
def mi1 : MenuItem :=
  { id := 3, tenant_id := 1, name := "Coffee", description := none,
    station_id := some 4, course_id := some 5 }

/-- Concrete auto-fire course. -/
def kc1 : KitchenCourse :=
  { id := 5, tenant_id := 1, name := "Drinks", course_number := 1,
    auto_fire_on_confirm := true }

/-- Concrete database holding the confirmed draft d1 and no tickets yet. -/
def genDB : TicketDB :=
  { drafts := [d1], draftItems := [li1], menuItems := [mi1], courses := [kc1],
    tableSessions := [], users := [], tickets := [], ticketItems := [],
    nextId := 10 }

/-- Result of the first generation call on genDB. -/
def genResult1 : GenResult :=
  match generateTickets genDB 1 1 0 with
  | Except.ok r => r
  | Except.error _ => { db := genDB, created := [] }

/-- Result of repeating the generation call on the committed state. -/
def genResult2 : GenResult :=
  match generateTickets genResult1.db 1 1 0 with
  | Except.ok r => r
  | Except.error _ => { db := genResult1.db, created := [] }

/-- Concrete ticket in status new, version 3. -/
def sampleTicketNew : Ticket :=
  { id := 1, tenant_id := 1, draft_order_id := 1, table_session_id := 1,
    station_id := 4, status := TicketStatus.new, course_number := 2,
    course_name := some "Mains", is_rush := false, priority_level := none,
    estimated_prep_time_minutes := none, prep_started_at := none,
    ready_at := none, completed_at := none, table_number := none,
    server_name := none, special_instructions := none, is_held := false,
    held_reason := none, held_at := none, print_count := 0,
    last_printed_at := none, created_at := 0, updated_at := none,
    fired_at := none, voided_at := none, voided_by := none,
    voided_reason := none, version := 3 }

/-- Database holding only sampleTicketNew. -/
def holdDB : TicketDB :=
  { drafts := [], draftItems := [], menuItems := [], courses := [],
    tableSessions := [], users := [], tickets := [sampleTicketNew],
    ticketItems := [], nextId := 50 }

/-- The row hold_ticket writes for sampleTicketNew at version 3. -/
def heldTicketExpected : Ticket :=
  { sampleTicketNew with is_held := true, held_reason := some "wait",
                         held_at := some 5, status := TicketStatus.pending,
                         version := 4 }

/-- Concrete voided ticket, version 7. -/
def sampleTicketVoided : Ticket :=
  { sampleTicketNew with id := 2, status := TicketStatus.voided,
                         voided_at := some 2, voided_by := some 8,
                         voided_reason := some "spill", version := 7 }

/-- Database holding only sampleTicketVoided. -/
def bumpDB : TicketDB :=
  { holdDB with tickets := [sampleTicketVoided] }

/-- Concrete pending draft locked by user 1 at time 0. -/
def lockDraft : DraftOrder :=
  { d1 with status := DraftStatus.pending, locked_by := some 1,
            locked_at := some 0, confirmed_at := none }

/-- Concrete closed shift awaiting reconciliation. -/
def sampleShiftClosed : Shift :=
  { id := 1, tenant_id := 1, server_id := 9, location_id := 1,
    status := ShiftStatus.closed, opened_at := 0, closed_at := some 100,
    reconciled_at := none, opening_balance := 10000, cash_sales := 25000,
    card_sales := 0, tip_sales := 0, closing_cash_count := some 34000,
    card_count := some 0, expected_cash := none, cash_variance := none,
    is_over := none, total_break_time_minutes := 0, break_count := 0,
    opening_notes := none, closing_notes := none,
    reconciliation_notes := none, opened_by := 9, closed_by := some 9,
    reconciled_by := none, version := 1 }

/-- Concrete pending order, total 10.00. -/
def order1 : Order :=
  { id := 1, tenant_id := 1, table_session_id := some 1, location_id := 1,
    status := OrderStatus.pending, total_amount := 1000 }

/-- Payments database with order1, no shifts at all. -/
def payDB1 : PayDB :=
  { orders := [order1], payments := [], intents := [], shifts := [],
    cashEvents := [], refunds := [], logs := [], nextId := 20 }

/-- Cash payment request of 5.00 on order1. -/
def cashReq : PaymentCreate :=
  { order_id := 1, amount := 500, method := PaymentMethod.cash,
    card_last_4 := none, card_holder_name := none,
    terminal_reference_id := none, qr_code := none, qr_provider := none }

/-- Concrete active shift of server 9. -/
def activeShift9 : Shift :=
  { sampleShiftClosed with id := 2, status := ShiftStatus.active,
                           closed_at := none, closing_cash_count := none,
                           card_count := none, cash_sales := 0 }

/-- Payments database with order1 and an active shift for server 9. -/
def payDB6 : PayDB :=
  { payDB1 with shifts := [activeShift9] }

/-- Concrete completed payment on order1. -/
def samplePaymentCompleted : Payment :=
  { id := 1, tenant_id := 1, order_id := 1, payment_intent_id := none,
    method := PaymentMethod.cash, amount := 500,
    status := PaymentStatus.completed, card_last_4 := none,
    card_holder_name := none, terminal_reference_id := none,
    terminal_response := none, qr_code := none,
    qr_provider := some "mercadopago", processed_by_user_id := some 9,
    created_at := 0, processed_at := some 10, failed_at := none,
    refunded_at := none, version := 0 }

/-- Payments database holding the completed payment, no refunds. -/
def refundDB : PayDB :=
  { payDB1 with payments := [samplePaymentCompleted] }

/-- Order of total 5.00 used to show the cash path skips the status
recomputation. -/
def order8 : Order :=
  { order1 with total_amount := 500 }

/-- Payments database for the cash-path counterexample: one pending order
whose total equals the incoming cash amount. -/
def payDB8 : PayDB :=
  { payDB1 with orders := [order8] }

/-- Concrete pending qr payment intent, idempotency key ref1. -/
def qrIntent : PaymentIntent :=
  { id := 3, tenant_id := 1, order_id := 1, method := PaymentMethod.qr,
    status := PaymentIntentStatus.pending, amount := 500, tip_amount := 0,
    idempotency_key := some "ref1", qr_code := some "QRDATA",
    qr_provider := some "mercadopago", qr_expires_at := none,
    initiated_by_user_id := 9, processed_at := none, cancelled_at := none,
    failed_at := none, cancelled_reason := none, failed_reason := none,
    created_at := 0, updated_at := none, version := 1 }

/-- Webhook database: order8 awaiting its qr payment, no log rows. -/
def webhookDB : PayDB :=
  { payDB8 with intents := [qrIntent] }

/-- A verified paid notification for ref1. -/
def mpNote : MpNotification :=
  { valid := true, action_type := "payment.updated",
    external_reference := "ref1", mp_order_id := "mp-77",
    mp_status := "paid", qr_data := some "QRDATA", api_status := none }

/-- A verified paid notification whose external reference matches no
payment intent of webhookDB. -/
def mpNoteNoIntent : MpNotification :=
  { valid := true, action_type := "payment.updated",
    external_reference := "ref-missing", mp_order_id := "mp-78",
    mp_status := "paid", qr_data := none, api_status := none }

theorem find?_append_of_none {α : Type} {p : α → Bool} {l1 l2 : List α}
    (h : l1.find? p = none) : (l1 ++ l2).find? p = l2.find? p := by
  rw [List.find?_append, h, Option.none_or]

theorem find?_of_countLogs_zero {logs : List WebhookLog} {ref : String}
    (h : countLogs logs ref = 0) : logs.find? (logMatches ref) = none := by
  rw [List.find?_eq_none]
  intro x hx hpx
  unfold countLogs at h
  rw [List.length_eq_zero] at h
  have : x ∈ logs.filter (logMatches ref) := List.mem_filter.mpr ⟨hx, hpx⟩
  simp [h] at this

/-- C10: bump_ticket performs no check of the current ticket status: for
every ticket of the tenant, in any status whatsoever, a matching version
makes the bump succeed, setting status = completed, completed_at = now and
bumping the version by one, all other fields unchanged. -/
theorem c10_bump_unguarded (db : TicketDB) (ticketId tenant version : Nat)
    (now : Int) (t : Ticket)
    (hfind : db.tickets.find? (fun u => u.id == ticketId && u.tenant_id == tenant) = some t)
    (hver : t.version = version) :
    bumpTicket db ticketId tenant version now =
      Except.ok
        ({ db with tickets := db.tickets.map (fun u =>
             if u.id == t.id then
               { t with status := TicketStatus.completed
                        completed_at := some now
                        version := t.version + 1 }
             else u) },
         { t with status := TicketStatus.completed
                  completed_at := some now
                  version := t.version + 1 }) := by
  unfold bumpTicket
  rw [hfind]
  simp [hver]

/-- C10 witness: a voided ticket (version 7) is bumped to completed. -/
theorem c10_bump_unguarded_witness :
    sampleTicketVoided.status = TicketStatus.voided ∧
    bumpTicket bumpDB 2 1 7 11 =
      Except.ok
        ({ bumpDB with tickets := bumpDB.tickets.map (fun u =>
             if u.id == sampleTicketVoided.id then
               { sampleTicketVoided with status := TicketStatus.completed
                                         completed_at := some 11
                                         version := sampleTicketVoided.version + 1 }
             else u) },
         { sampleTicketVoided with status := TicketStatus.completed
                                   completed_at := some 11
                                   version := sampleTicketVoided.version + 1 }) :=
  ⟨by decide,
   c10_bump_unguarded bumpDB 2 1 7 11 sampleTicketVoided (by decide) (by decide)⟩

/-- C9: shift reconciliation arithmetic.  record_cash_count is permitted
exactly in closing or closed and stores expected_cash = opening_balance +
cash_sales, cash_variance = closing_cash_count - expected_cash and
is_over = (cash_variance > 0); reconcile_shift recomputes the same values
from the recorded count and moves the closed shift to reconciled.  Exact
fixed-point arithmetic is modelled by integer cents. -/
theorem c9_shift_reconciliation (s : Shift) (ccc cardc : Int)
    (tenant userId : Nat) (now : Int) :
    ((s.status ≠ ShiftStatus.closing ∧ s.status ≠ ShiftStatus.closed) →
      recordCashCount s ccc cardc =
        Except.error "Must be in closing or closed state to record counts") ∧
    ((s.status = ShiftStatus.closing ∨ s.status = ShiftStatus.closed) →
      recordCashCount s ccc cardc =
        Except.ok { s with
          closing_cash_count := some ccc
          card_count := some cardc
          expected_cash := some (s.opening_balance + s.cash_sales)
          cash_variance := some (ccc - (s.opening_balance + s.cash_sales))
          is_over := some (decide (ccc - (s.opening_balance + s.cash_sales) > 0)) }) ∧
    (s.tenant_id = tenant → s.status = ShiftStatus.closed →
      s.closing_cash_count = some ccc →
      reconcileShiftApi s tenant userId now =
        Except.ok { s with
          expected_cash := some (s.opening_balance + s.cash_sales)
          cash_variance := some (ccc - (s.opening_balance + s.cash_sales))
          is_over := some (decide (ccc - (s.opening_balance + s.cash_sales) > 0))
          reconciled_by := some userId
          reconciled_at := some now
          status := ShiftStatus.reconciled }) := by
  refine ⟨?_, ?_, ?_⟩
  · intro h
    unfold recordCashCount
    simp [h.1, h.2]
  · intro h
    unfold recordCashCount
    rcases h with h | h <;> simp [h]
  · intro h1 h2 h3
    unfold reconcileShiftApi
    simp [h1, h2, h3]

/-- C9 witness: a concrete closed shift (opening 100.00, cash sales 250.00,
counted 340.00) reconciles with variance -10.00, not over. -/
theorem c9_shift_reconciliation_witness :
    recordCashCount sampleShiftClosed 34000 0 =
      Except.ok { sampleShiftClosed with
        closing_cash_count := some 34000
        card_count := some 0
        expected_cash := some (sampleShiftClosed.opening_balance + sampleShiftClosed.cash_sales)
        cash_variance := some (34000 - (sampleShiftClosed.opening_balance + sampleShiftClosed.cash_sales))
        is_over := some (decide (34000 - (sampleShiftClosed.opening_balance + sampleShiftClosed.cash_sales) > 0)) } ∧
    reconcileShiftApi sampleShiftClosed 1 9 200 =
      Except.ok { sampleShiftClosed with
        expected_cash := some (sampleShiftClosed.opening_balance + sampleShiftClosed.cash_sales)
        cash_variance := some (34000 - (sampleShiftClosed.opening_balance + sampleShiftClosed.cash_sales))
        is_over := some (decide (34000 - (sampleShiftClosed.opening_balance + sampleShiftClosed.cash_sales) > 0))
        reconciled_by := some 9
        reconciled_at := some 200
        status := ShiftStatus.reconciled } :=
  ⟨(c9_shift_reconciliation sampleShiftClosed 34000 0 1 9 200).2.1 (Or.inr (by decide)),
   (c9_shift_reconciliation sampleShiftClosed 34000 0 1 9 200).2.2 (by decide) (by decide) (by decide)⟩

/-- C5 counterexample: at exactly 30 minutes elapsed (1800 seconds) the
claim calls the lease expired and says another user acquires it; the code
still treats the lease as active (the test is strictly greater than 1800)
and refuses with a lock conflict. -/
theorem c5_lock_boundary_counterexample :
    lockDraft.status = DraftStatus.pending ∧
    lockDraft.locked_by = some 1 ∧
    lockDraft.locked_at = some 0 ∧
    (1800 : Int) - 0 ≥ 1800 ∧
    (canAcquireLock lockDraft 2 1800).1 = false ∧
    acquireLock lockDraft 2 1800 =
      Except.error "Draft is already locked by another user" := by
  refine ⟨by decide, by decide, by decide, by decide, by decide, ?_⟩
  decide

/-- C5 (amended): acquisition rules with the code's strict boundary.  A
lease counts as expired only when now - locked_at is strictly greater than
1800 seconds; at 1800 or less it still blocks other users.  Refusal when
the draft is not pending, success on a free draft, success overwriting an
expired lease, refusal of another user's unexpired lease, unconditional
re-acquisition by the holder, and the success effect of acquire_lock. -/
theorem c5_lock_acquisition_rules (d : DraftOrder) (userId : Nat) (now : Int) :
    (d.status ≠ DraftStatus.pending → (canAcquireLock d userId now).1 = false) ∧
    (d.status = DraftStatus.pending → d.locked_by = none →
      (canAcquireLock d userId now).1 = true) ∧
    (∀ u la, d.status = DraftStatus.pending → d.locked_by = some u →
      d.locked_at = some la → now - la > 1800 →
      (canAcquireLock d userId now).1 = true) ∧
    (∀ u la, d.status = DraftStatus.pending → d.locked_by = some u →
      d.locked_at = some la → now - la ≤ 1800 → u ≠ userId →
      (canAcquireLock d userId now).1 = false) ∧
    (∀ u, d.status = DraftStatus.pending → d.locked_by = some u → u = userId →
      (canAcquireLock d userId now).1 = true) ∧
    ((canAcquireLock d userId now).1 = true →
      acquireLock d userId now =
        Except.ok { d with locked_by := some userId, locked_at := some now,
                           version := d.version + 1 }) := by
  refine ⟨?_, ?_, ?_, ?_, ?_, ?_⟩
  · intro h
    unfold canAcquireLock
    simp [h]
  · intro h1 h2
    unfold canAcquireLock
    simp [h1, h2]
  · intro u la h1 h2 h3 h4
    unfold canAcquireLock
    simp [h1, h2, h3, h4]
  · intro u la h1 h2 h3 h4 h5
    unfold canAcquireLock
    have : ¬ (now - la > 1800) := not_lt.mpr h4
    simp [h1, h2, h3, this, h5]
  · intro u h1 h2 h3
    unfold canAcquireLock
    simp [h1, h2, h3]
    split <;> simp
  · intro h
    unfold acquireLock
    simp [h]

/-- C5 witness: user 1 re-acquires its own unexpired lease (10 seconds
old); the call succeeds and refreshes locked_at to now. -/
theorem c5_lock_acquisition_rules_witness :
    lockDraft.status = DraftStatus.pending ∧
    (canAcquireLock lockDraft 1 10).1 = true ∧
    acquireLock lockDraft 1 10 =
      Except.ok { lockDraft with locked_by := some 1, locked_at := some 10,
                                 version := lockDraft.version + 1 } :=
  ⟨by decide,
   (c5_lock_acquisition_rules lockDraft 1 10).2.2.2.2.1 1 (by decide) (by decide) rfl,
   (c5_lock_acquisition_rules lockDraft 1 10).2.2.2.2.2
     ((c5_lock_acquisition_rules lockDraft 1 10).2.2.2.2.1 1 (by decide) (by decide) rfl)⟩

/-- C4 counterexample: holding a ticket whose status is new succeeds and
leaves it with status pending, so holding does change the status field,
contradicting the claim that status is the same before and after. -/
theorem c4_hold_counterexample :
    sampleTicketNew.status = TicketStatus.new ∧
    holdTicket holdDB 1 1 3 "wait" 5 =
      Except.ok ({ holdDB with tickets := [heldTicketExpected] },
                 heldTicketExpected) ∧
    heldTicketExpected.status ≠ sampleTicketNew.status := by
  refine ⟨by decide, ?_, by decide⟩
  decide

/-- C4 (amended): a successful hold (matching version) sets is_held = true,
records held_reason and held_at, forces status to pending (overwriting
whatever status the ticket had), and bumps the version; every other field
is unchanged. -/
theorem c4_hold_forces_pending (db : TicketDB) (ticketId tenant version : Nat)
    (reason : String) (now : Int) (t : Ticket)
    (hfind : db.tickets.find? (fun u => u.id == ticketId && u.tenant_id == tenant) = some t)
    (hver : t.version = version) :
    holdTicket db ticketId tenant version reason now =
      Except.ok
        ({ db with tickets := db.tickets.map (fun u =>
             if u.id == t.id then
               { t with is_held := true
                        held_reason := some reason
                        held_at := some now
                        status := TicketStatus.pending
                        version := t.version + 1 }
             else u) },
         { t with is_held := true
                  held_reason := some reason
                  held_at := some now
                  status := TicketStatus.pending
                  version := t.version + 1 }) := by
  unfold holdTicket
  rw [hfind]
  simp [hver]

/-- C4 witness: the concrete hold of sampleTicketNew at version 3. -/
theorem c4_hold_forces_pending_witness :
    holdTicket holdDB 1 1 3 "wait" 5 =
      Except.ok
        ({ holdDB with tickets := holdDB.tickets.map (fun u =>
             if u.id == sampleTicketNew.id then
               { sampleTicketNew with is_held := true
                                      held_reason := some "wait"
                                      held_at := some 5
                                      status := TicketStatus.pending
                                      version := sampleTicketNew.version + 1 }
             else u) },
         { sampleTicketNew with is_held := true
                                held_reason := some "wait"
                                held_at := some 5
                                status := TicketStatus.pending
                                version := sampleTicketNew.version + 1 }) :=
  c4_hold_forces_pending holdDB 1 1 3 "wait" 5 sampleTicketNew (by decide) (by decide)

/-- C7 counterexample: a refund on a completed payment succeeds and creates
the requested Refund row, but the payment row is untouched: its status
stays completed and refunded_at stays null, contradicting the claim that
the payment is set to refunded with refunded_at = now. -/
theorem c7_refund_counterexample :
    samplePaymentCompleted.status = PaymentStatus.completed ∧
    (processRefund refundDB 1 1 500 "customer_request" none 9).2 =
      Except.ok { id := 20, tenant_id := 1, original_payment_id := 1,
                  order_id := 1, amount := 500,
                  reason_code := "customer_request", reason := none,
                  created_by := 9, status := RefundStatus.requested } ∧
    (processRefund refundDB 1 1 500 "customer_request" none 9).1.payments =
      refundDB.payments ∧
    (((processRefund refundDB 1 1 500 "customer_request" none 9).1.payments.find?
        (fun q => q.id == 1)).map (fun q => (q.status, q.refunded_at))) =
      some (PaymentStatus.completed, none) := by
  refine ⟨by decide, ?_, by decide, by decide⟩
  decide

/-- C7 (amended): process_refund succeeds only for a completed payment with
no prior completed refund (otherwise it fails leaving the database
unchanged); on success it commits exactly one Refund in status requested
referencing the payment, and the payment row itself is left unchanged (its
status remains completed, refunded_at stays null). -/
theorem c7_refund_behavior (db : PayDB) (paymentId tenant : Nat)
    (amount : Int) (rc : String) (reason : Option String) (userId : Nat)
    (p : Payment)
    (hfind : db.payments.find? (fun q => q.id == paymentId) = some p)
    (htenant : p.tenant_id = tenant) :
    (p.status ≠ PaymentStatus.completed →
      processRefund db paymentId tenant amount rc reason userId =
        (db, Except.error ApiError.badRequest)) ∧
    (∀ r0, p.status = PaymentStatus.completed →
      db.refunds.find? (fun r => r.original_payment_id == paymentId &&
        r.status == RefundStatus.completed) = some r0 →
      processRefund db paymentId tenant amount rc reason userId =
        (db, Except.error ApiError.badRequest)) ∧
    (p.status = PaymentStatus.completed →
      db.refunds.find? (fun r => r.original_payment_id == paymentId &&
        r.status == RefundStatus.completed) = none →
      processRefund db paymentId tenant amount rc reason userId =
        ({ db with
            refunds := db.refunds ++
              [{ id := db.nextId, tenant_id := tenant,
                 original_payment_id := paymentId, order_id := p.order_id,
                 amount := amount, reason_code := rc, reason := reason,
                 created_by := userId, status := RefundStatus.requested }]
            nextId := db.nextId + 1 },
         Except.ok
           { id := db.nextId, tenant_id := tenant,
             original_payment_id := paymentId, order_id := p.order_id,
             amount := amount, reason_code := rc, reason := reason,
             created_by := userId, status := RefundStatus.requested })) := by
  refine ⟨?_, ?_, ?_⟩
  · intro h
    unfold processRefund
    rw [hfind]
    simp [htenant, h]
  · intro r0 h1 h2
    unfold processRefund
    rw [hfind]
    simp [htenant, h1, h2]
  · intro h1 h2
    unfold processRefund
    rw [hfind]
    simp [htenant, h1, h2]

/-- C7 witness: the concrete successful refund on refundDB. -/
theorem c7_refund_behavior_witness :
    samplePaymentCompleted.status = PaymentStatus.completed ∧
    processRefund refundDB 1 1 500 "customer_request" none 9 =
      ({ refundDB with
          refunds := refundDB.refunds ++
            [{ id := refundDB.nextId, tenant_id := 1,
               original_payment_id := 1,
               order_id := samplePaymentCompleted.order_id, amount := 500,
               reason_code := "customer_request", reason := none,
               created_by := 9, status := RefundStatus.requested }]
          nextId := refundDB.nextId + 1 },
       Except.ok
         { id := refundDB.nextId, tenant_id := 1, original_payment_id := 1,
           order_id := samplePaymentCompleted.order_id, amount := 500,
           reason_code := "customer_request", reason := none,
           created_by := 9, status := RefundStatus.requested }) :=
  ⟨by decide,
   (c7_refund_behavior refundDB 1 1 500 "customer_request" none 9
       samplePaymentCompleted (by decide) (by decide)).2.2 (by decide) (by decide)⟩

theorem map_id_of_ne (l : List Payment) (i : Nat) (b : Payment)
    (h : ∀ q ∈ l, q.id ≠ i) :
    l.map (fun q => if q.id == i then b else q) = l := by
  induction l with
  | nil => rfl
  | cons x xs ih =>
    have hx : x.id ≠ i := h x (List.mem_cons_self x xs)
    simp only [List.map_cons]
    rw [if_neg (by simp [hx]), ih (fun q hq => h q (List.mem_cons_of_mem x hq))]

/-- C6 counterexample: a cash payment processed while the user has no shift
at all is not rejected; it completes with a drawer event attached to no
shift, contradicting the claim that the request is rejected when no active
shift exists. -/
theorem c6_cash_no_shift_counterexample :
    payDB1.shifts = [] ∧
    ((processPayment payDB1 cashReq 9 1 100).result.toOption.map
      (fun p => p.status)) = some PaymentStatus.completed ∧
    ((processPayment payDB1 cashReq 9 1 100).db.cashEvents.map
      (fun e => e.shift_id)) = [none] := by
  refine ⟨by decide, ?_, ?_⟩ <;> decide

/-- C6 (amended): a cash payment on a pending or in-progress order of the
tenant always completes synchronously with a payment_in drawer event of
the payment amount.  When the user has an active shift the event is
attached to it and its cash_sales grows by the amount; when there is none
the payment still completes, the event carries no shift and the shifts
table is untouched. -/
theorem c6_cash_payment_shift (db : PayDB) (pd : PaymentCreate)
    (userId tenant : Nat) (now : Int) (order : Order)
    (hfind : db.orders.find? (fun o => o.id == pd.order_id) = some order)
    (htenant : order.tenant_id = tenant)
    (horder : order.status = OrderStatus.pending ∨
              order.status = OrderStatus.inProgress)
    (hmethod : pd.method = PaymentMethod.cash)
    (hfresh : ∀ q ∈ db.payments, q.id ≠ db.nextId) :
    (∀ sh, db.shifts.find? (fun s =>
        s.server_id == userId && s.status == ShiftStatus.active) = some sh →
      processPayment db pd userId tenant now =
        { db :=
            { db with
              payments := db.payments ++
                [{ id := db.nextId, tenant_id := tenant,
                   order_id := pd.order_id, payment_intent_id := none,
                   method := pd.method, amount := pd.amount,
                   status := PaymentStatus.completed,
                   card_last_4 := pd.card_last_4,
                   card_holder_name := pd.card_holder_name,
                   terminal_reference_id := pd.terminal_reference_id,
                   terminal_response := none, qr_code := pd.qr_code,
                   qr_provider := some (pyOrStr pd.qr_provider "mercadopago"),
                   processed_by_user_id := some userId, created_at := now,
                   processed_at := some now, failed_at := none,
                   refunded_at := none, version := 0 }]
              shifts := db.shifts.map (fun s =>
                if s.id == sh.id then
                  { s with cash_sales := s.cash_sales + pd.amount }
                else s)
              cashEvents := db.cashEvents ++
                [{ id := db.nextId + 1, tenant_id := tenant,
                   order_id := pd.order_id, payment_id := db.nextId,
                   location_id := order.location_id,
                   shift_id := some sh.id,
                   event_type := CashDrawerEventType.paymentIn,
                   amount := pd.amount, balance_after := pd.amount,
                   description := "Payment in for order",
                   performed_by := userId }]
              nextId := db.nextId + 1 + 1 }
          result := Except.ok
            { id := db.nextId, tenant_id := tenant, order_id := pd.order_id,
              payment_intent_id := none, method := pd.method,
              amount := pd.amount, status := PaymentStatus.completed,
              card_last_4 := pd.card_last_4,
              card_holder_name := pd.card_holder_name,
              terminal_reference_id := pd.terminal_reference_id,
              terminal_response := none, qr_code := pd.qr_code,
              qr_provider := some (pyOrStr pd.qr_provider "mercadopago"),
              processed_by_user_id := some userId, created_at := now,
              processed_at := some now, failed_at := none,
              refunded_at := none, version := 0 } }) ∧
    (db.shifts.find? (fun s =>
        s.server_id == userId && s.status == ShiftStatus.active) = none →
      processPayment db pd userId tenant now =
        { db :=
            { db with
              payments := db.payments ++
                [{ id := db.nextId, tenant_id := tenant,
                   order_id := pd.order_id, payment_intent_id := none,
                   method := pd.method, amount := pd.amount,
                   status := PaymentStatus.completed,
                   card_last_4 := pd.card_last_4,
                   card_holder_name := pd.card_holder_name,
                   terminal_reference_id := pd.terminal_reference_id,
                   terminal_response := none, qr_code := pd.qr_code,
                   qr_provider := some (pyOrStr pd.qr_provider "mercadopago"),
                   processed_by_user_id := some userId, created_at := now,
                   processed_at := some now, failed_at := none,
                   refunded_at := none, version := 0 }]
              cashEvents := db.cashEvents ++
                [{ id := db.nextId + 1, tenant_id := tenant,
                   order_id := pd.order_id, payment_id := db.nextId,
                   location_id := order.location_id, shift_id := none,
                   event_type := CashDrawerEventType.paymentIn,
                   amount := pd.amount, balance_after := pd.amount,
                   description := "Payment in for order",
                   performed_by := userId }]
              nextId := db.nextId + 1 + 1 }
          result := Except.ok
            { id := db.nextId, tenant_id := tenant, order_id := pd.order_id,
              payment_intent_id := none, method := pd.method,
              amount := pd.amount, status := PaymentStatus.completed,
              card_last_4 := pd.card_last_4,
              card_holder_name := pd.card_holder_name,
              terminal_reference_id := pd.terminal_reference_id,
              terminal_response := none, qr_code := pd.qr_code,
              qr_provider := some (pyOrStr pd.qr_provider "mercadopago"),
              processed_by_user_id := some userId, created_at := now,
              processed_at := some now, failed_at := none,
              refunded_at := none, version := 0 } }) := by
  have hguard : ¬ (order.status ≠ OrderStatus.pending ∧
      order.status ≠ OrderStatus.inProgress) := by
    rcases horder with h | h <;> simp [h]
  constructor
  · intro sh hshift
    unfold processPayment
    rw [hfind]
    simp only [htenant, ne_eq, not_true_eq_false, if_neg, hguard, if_false,
      hmethod, hshift]
    rw [List.map_append, map_id_of_ne db.payments db.nextId _ hfresh]
    simp [htenant]
  · intro hshift
    unfold processPayment
    rw [hfind]
    simp only [htenant, ne_eq, not_true_eq_false, if_neg, hguard, if_false,
      hmethod, hshift]
    rw [List.map_append, map_id_of_ne db.payments db.nextId _ hfresh]
    simp [htenant]

/-- C6 witness: server 9 has the active shift activeShift9; the concrete
cash payment of 5.00 completes, the drawer event is attached to shift 2
and its cash_sales grows from 0 to 500 cents. -/
theorem c6_cash_payment_shift_witness :
    processPayment payDB6 cashReq 9 1 100 =
      { db :=
          { orders := [order1],
            payments := [{ id := 20, tenant_id := 1, order_id := 1,
                           payment_intent_id := none,
                           method := PaymentMethod.cash, amount := 500,
                           status := PaymentStatus.completed,
                           card_last_4 := none, card_holder_name := none,
                           terminal_reference_id := none,
                           terminal_response := none, qr_code := none,
                           qr_provider := some "mercadopago",
                           processed_by_user_id := some 9, created_at := 100,
                           processed_at := some 100, failed_at := none,
                           refunded_at := none, version := 0 }],
            intents := [],
            shifts := [{ activeShift9 with cash_sales := 500 }],
            cashEvents := [{ id := 21, tenant_id := 1, order_id := 1,
                             payment_id := 20, location_id := 1,
                             shift_id := some 2,
                             event_type := CashDrawerEventType.paymentIn,
                             amount := 500, balance_after := 500,
                             description := "Payment in for order",
                             performed_by := 9 }],
            refunds := [],
            logs := [],
            nextId := 22 },
        result := Except.ok { id := 20, tenant_id := 1, order_id := 1,
                              payment_intent_id := none,
                              method := PaymentMethod.cash, amount := 500,
                              status := PaymentStatus.completed,
                              card_last_4 := none, card_holder_name := none,
                              terminal_reference_id := none,
                              terminal_response := none, qr_code := none,
                              qr_provider := some "mercadopago",
                              processed_by_user_id := some 9,
                              created_at := 100, processed_at := some 100,
                              failed_at := none, refunded_at := none,
                              version := 0 } } :=
  (c6_cash_payment_shift payDB6 cashReq 9 1 100 order1 (by decide) (by decide)
    (Or.inl (by decide)) (by decide) (by decide)).1 activeShift9 (by decide)

/-- C8 counterexample: a synchronous cash payment that covers the whole
order total leaves the order status untouched (still pending), although
the claim says every payment completion recomputes it to paid. -/
theorem c8_cash_counterexample :
    sumCompletedPayments (processPayment payDB8 cashReq 9 1 100).db.payments 1 = 500 ∧
    order8.total_amount = 500 ∧
    ((processPayment payDB8 cashReq 9 1 100).db.orders.map (fun o => o.status)) =
      [OrderStatus.pending] := by
  refine ⟨?_, by decide, ?_⟩ <;> decide

/-- C8 (amended): only the webhook path recomputes the order status.  The
synchronous process_payment never touches any order row; on the webhook
path process_successful_payment recomputes the status of a not-yet-paid
order from the sum of its completed payments (paid when the sum reaches
total_amount, in_progress otherwise) and leaves an already-paid order
unchanged. -/
theorem c8_order_status_coupling (db : PayDB) (pd : PaymentCreate)
    (userId tenant : Nat) (now : Int) (db2 : PayDB) (intent : PaymentIntent)
    (qrData : Option String) (now2 : Int) (o : Order) :
    ((processPayment db pd userId tenant now).db.orders = db.orders) ∧
    (db2.orders.find? (fun q => q.id == intent.order_id) = some o →
      o.status ≠ OrderStatus.paid →
      (processSuccessfulPayment db2 intent qrData now2).orders =
        db2.orders.map (fun q =>
          if q.id == o.id then
            { q with status :=
                if (sumCompletedPayments
                    (processSuccessfulPayment db2 intent qrData now2).payments
                    intent.order_id ≥ o.total_amount)
                then OrderStatus.paid else OrderStatus.inProgress }
          else q)) ∧
    (db2.orders.find? (fun q => q.id == intent.order_id) = some o →
      o.status = OrderStatus.paid →
      (processSuccessfulPayment db2 intent qrData now2).orders = db2.orders) := by
  refine ⟨?_, ?_, ?_⟩
  · unfold processPayment
    cases hf : db.orders.find? (fun q => q.id == pd.order_id) with
    | none => rfl
    | some order =>
      by_cases h1 : order.tenant_id ≠ tenant
      · simp [h1]
      · by_cases h2 : order.status ≠ OrderStatus.pending ∧
            order.status ≠ OrderStatus.inProgress
        · simp [h1, h2]
        · simp only [h1, h2, if_false, ite_false]
          cases pd.method <;> rfl
  · intro hof ho
    unfold processSuccessfulPayment
    rw [hof]
    simp [ho]
  · intro hof ho
    unfold processSuccessfulPayment
    rw [hof]
    simp [ho]

/-- C8 witness: the cash path on payDB8 leaves orders unchanged, and the
webhook path on webhookDB recomputes the status of order8. -/
theorem c8_order_status_coupling_witness :
    ((processPayment payDB8 cashReq 9 1 100).db.orders = payDB8.orders) ∧
    ((processSuccessfulPayment webhookDB qrIntent (some "QRDATA") 100).orders =
      webhookDB.orders.map (fun q =>
        if q.id == order8.id then
          { q with status :=
              if (sumCompletedPayments
                  (processSuccessfulPayment webhookDB qrIntent (some "QRDATA") 100).payments
                  qrIntent.order_id ≥ order8.total_amount)
              then OrderStatus.paid else OrderStatus.inProgress }
        else q)) :=
  ⟨(c8_order_status_coupling payDB8 cashReq 9 1 100 webhookDB qrIntent
      (some "QRDATA") 100 order8).1,
   (c8_order_status_coupling payDB8 cashReq 9 1 100 webhookDB qrIntent
      (some "QRDATA") 100 order8).2.1 (by decide) (by decide)⟩

theorem mkItemsFor_fired_status (mis : List MenuItem) (tenant tid : Nat)
    (g : StationCourseGroup) (now : Int) :
    ∀ (its : List DraftLineItem) (n : Nat),
      ∀ li ∈ mkItemsFor mis tenant tid g now its n,
        li.fired_status =
          if g.auto_fire then FiredStatus.fired else FiredStatus.pending := by
  intro its
  induction its with
  | nil =>
    intro n li h
    simp [mkItemsFor] at h
  | cons it rest ih =>
    intro n li h
    simp only [mkItemsFor, List.mem_cons] at h
    rcases h with h | h
    · subst h
      simp [mkTicketLineItem]
    · exact ih (n + 1) li h

theorem genLoop_tickets (tenant : Nat) (draft : DraftOrder)
    (tn sn : Option String) (mis : List MenuItem) (now : Int)
    (gs : List StationCourseGroup) :
    ∀ db : TicketDB,
      (genLoop tenant draft tn sn mis now db gs).1.tickets =
        db.tickets ++
          ((genLoop tenant draft tn sn mis now db gs).2.map (fun c => c.ticket)) := by
  induction gs with
  | nil =>
    intro db
    simp [genLoop]
  | cons g gs ih =>
    intro db
    simp only [genLoop]
    rw [ih]
    simp [addGroup, List.append_assoc]

theorem genLoop_length (tenant : Nat) (draft : DraftOrder)
    (tn sn : Option String) (mis : List MenuItem) (now : Int)
    (gs : List StationCourseGroup) :
    ∀ db : TicketDB,
      (genLoop tenant draft tn sn mis now db gs).2.length = gs.length := by
  induction gs with
  | nil =>
    intro db
    simp [genLoop]
  | cons g gs ih =>
    intro db
    simp only [genLoop]
    simp [ih]

theorem genLoop_autofire (tenant : Nat) (draft : DraftOrder)
    (tn sn : Option String) (mis : List MenuItem) (now : Int)
    (gs : List StationCourseGroup) :
    ∀ db : TicketDB, ∀ c ∈ (genLoop tenant draft tn sn mis now db gs).2,
      (c.group.auto_fire = true →
        c.ticket.status = TicketStatus.pending ∧
        c.ticket.fired_at = some now ∧
        c.ticket.is_held = false ∧
        ∀ li ∈ c.items, li.fired_status = FiredStatus.fired) ∧
      (c.group.auto_fire = false →
        c.ticket.status = TicketStatus.new ∧
        c.ticket.fired_at = none ∧
        ∀ li ∈ c.items, li.fired_status = FiredStatus.pending) := by
  induction gs with
  | nil =>
    intro db c hc
    simp [genLoop] at hc
  | cons g gs ih =>
    intro db c hc
    simp only [genLoop, List.mem_cons] at hc
    rcases hc with hc | hc
    · subst hc
      constructor
      · intro hg
        have hg2 : g.auto_fire = true := by simpa [addGroup] using hg
        refine ⟨by simp [addGroup, mkTicket, hg2], by simp [addGroup, mkTicket, hg2],
                by simp [addGroup, mkTicket, hg2], ?_⟩
        intro li hli
        have := mkItemsFor_fired_status mis tenant
          (mkTicket tenant draft tn sn g db.nextId now).id g now
          g.draft_items (db.nextId + 1) li (by simpa [addGroup] using hli)
        simpa [hg2] using this
      · intro hg
        have hg2 : g.auto_fire = false := by simpa [addGroup] using hg
        refine ⟨by simp [addGroup, mkTicket, hg2], by simp [addGroup, mkTicket, hg2], ?_⟩
        intro li hli
        have := mkItemsFor_fired_status mis tenant
          (mkTicket tenant draft tn sn g db.nextId now).id g now
          g.draft_items (db.nextId + 1) li (by simpa [addGroup] using hli)
        simpa [hg2] using this
    · exact ih _ c hc

/-- C3: auto-fire at fan-out.  Every ticket created by generate_tickets
from a confirmed draft is born pending with fired_at = now, not held, and
all its line items fired, when its kitchen course has auto_fire_on_confirm;
otherwise it is born new with fired_at null and pending line items. -/
theorem c3_auto_fire (db : TicketDB) (tenant draftId : Nat) (now : Int)
    (r : GenResult) (h : generateTickets db tenant draftId now = Except.ok r) :
    ∀ c ∈ r.created,
      (c.group.auto_fire = true →
        c.ticket.status = TicketStatus.pending ∧
        c.ticket.fired_at = some now ∧
        c.ticket.is_held = false ∧
        ∀ li ∈ c.items, li.fired_status = FiredStatus.fired) ∧
      (c.group.auto_fire = false →
        c.ticket.status = TicketStatus.new ∧
        c.ticket.fired_at = none ∧
        ∀ li ∈ c.items, li.fired_status = FiredStatus.pending) := by
  unfold generateTickets at h
  cases hf : db.drafts.find? (fun d => d.id == draftId && d.tenant_id == tenant) with
  | none =>
    rw [hf] at h
    cases h
  | some draft =>
    rw [hf] at h
    by_cases hc : draft.status ≠ DraftStatus.confirmed
    · simp [hc] at h
    · simp only [hc, ite_false, if_neg, if_false] at h
      by_cases he :
          (db.draftItems.filter (fun it => it.draft_order_id == draft.id)).isEmpty
      · simp [he] at h
      · simp only [he, ite_false, if_neg, if_false] at h
        injection h with h
        subst h
        intro c hc2
        exact genLoop_autofire tenant draft _ _ db.menuItems now _ db c hc2

/-- C3 witness: generation on genDB creates one auto-fired drinks ticket
with a fired line item. -/
theorem c3_auto_fire_witness :
    generateTickets genDB 1 1 0 = Except.ok genResult1 ∧
    ∀ c ∈ genResult1.created,
      (c.group.auto_fire = true →
        c.ticket.status = TicketStatus.pending ∧
        c.ticket.fired_at = some 0 ∧
        c.ticket.is_held = false ∧
        ∀ li ∈ c.items, li.fired_status = FiredStatus.fired) ∧
      (c.group.auto_fire = false →
        c.ticket.status = TicketStatus.new ∧
        c.ticket.fired_at = none ∧
        ∀ li ∈ c.items, li.fired_status = FiredStatus.pending) :=
  ⟨by decide, c3_auto_fire genDB 1 1 0 genResult1 (by decide)⟩

/-- C1 counterexample: after a first generation run on genDB the draft has
one ticket; invoking generation again succeeds and leaves two tickets for
the draft, so the second call does create new rows instead of returning
the existing set unchanged. -/
theorem c1_generate_counterexample :
    ticketsForDraft genResult1.db 1 = 1 ∧
    generateTickets genResult1.db 1 1 0 = Except.ok genResult2 ∧
    ticketsForDraft genResult2.db 1 = 2 := by
  refine ⟨by decide, by decide, by decide⟩

/-- C1 (amended): generate_tickets performs no existing-ticket check; every
successful call appends one fresh ticket per station-course group of the
draft's line items to the tickets table, so re-running for a draft that
already has tickets duplicates them instead of returning the existing
set. -/
theorem c1_generate_not_idempotent (db : TicketDB) (tenant draftId : Nat)
    (now : Int) (r : GenResult)
    (h : generateTickets db tenant draftId now = Except.ok r) :
    r.db.tickets = db.tickets ++ r.created.map (fun c => c.ticket) ∧
    r.created.length =
      (buildGroups db.menuItems db.courses
        (db.draftItems.filter (fun it => it.draft_order_id == draftId))).length := by
  unfold generateTickets at h
  cases hf : db.drafts.find? (fun d => d.id == draftId && d.tenant_id == tenant) with
  | none =>
    rw [hf] at h
    cases h
  | some draft =>
    have hid : draft.id = draftId := by
      have := List.find?_some hf
      simp at this
      exact this.1
    rw [hf] at h
    by_cases hc : draft.status ≠ DraftStatus.confirmed
    · simp [hc] at h
    · simp only [hc, ite_false, if_neg, if_false] at h
      by_cases he :
          (db.draftItems.filter (fun it => it.draft_order_id == draft.id)).isEmpty
      · simp [he] at h
      · simp only [he, ite_false, if_neg, if_false] at h
        injection h with h
        subst h
        refine ⟨genLoop_tickets tenant draft _ _ db.menuItems now _ db, ?_⟩
        rw [genLoop_length tenant draft _ _ db.menuItems now _ db, hid]

/-- C1 witness: the amended statement evaluated on genDB. -/
theorem c1_generate_not_idempotent_witness :
    genResult1.db.tickets = genDB.tickets ++ genResult1.created.map (fun c => c.ticket) ∧
    genResult1.created.length =
      (buildGroups genDB.menuItems genDB.courses
        (genDB.draftItems.filter (fun it => it.draft_order_id == 1))).length :=
  c1_generate_not_idempotent genDB 1 1 0 genResult1 (by decide)

theorem processSuccessfulPayment_logs (db : PayDB) (i : PaymentIntent)
    (q : Option String) (t : Int) :
    (processSuccessfulPayment db i q t).logs = db.logs := rfl

theorem processCancelledPayment_logs (db : PayDB) (i : PaymentIntent)
    (reason : String) (t : Int) :
    (processCancelledPayment db i reason t).logs = db.logs := rfl

theorem processFailedPayment_logs (db : PayDB) (i : PaymentIntent)
    (reason : String) (t : Int) :
    (processFailedPayment db i reason t).logs = db.logs := rfl

theorem logWebhook_find (db : PayDB) (n : MpNotification) (now : Int)
    (h : db.logs.find? (logMatches n.external_reference) = none) :
    (logWebhook db n now).logs.find? (logMatches n.external_reference) =
      some { id := "mp_" ++ n.external_reference ++ "_" ++ toString now,
             external_reference := n.external_reference,
             provider := "mercadopago", action_type := n.action_type,
             status := n.mp_status, processed_at := now } := by
  unfold logWebhook
  rw [find?_append_of_none h]
  simp [List.find?, logMatches]

theorem countLogs_logWebhook (db : PayDB) (n : MpNotification) (now : Int) :
    countLogs (logWebhook db n now).logs n.external_reference =
      countLogs db.logs n.external_reference + 1 := by
  unfold countLogs logWebhook
  simp [List.filter_append, logMatches]

theorem mpWebhook_duplicate (db : PayDB) (n : MpNotification) (now : Int)
    (hv : n.valid = true) (e : WebhookLog)
    (hfind : db.logs.find? (logMatches n.external_reference) = some e) :
    mpWebhook db n now = (db, WebhookResponse.duplicate) := by
  unfold mpWebhook
  rw [hfind]
  simp [hv]

/-- C2: webhook ingestion is idempotent per (provider, external_reference).
Starting from a state with no log row for the tuple, re-processing the same
notification leaves the final state exactly as after the first processing;
the log holds at most one row for the tuple, and when the first call was
logged as processed the repeat is acknowledged as a duplicate no-op with
exactly one log row present. -/
theorem c2_webhook_idempotent (db : PayDB) (n : MpNotification) (now now2 : Int)
    (h0 : countLogs db.logs n.external_reference = 0) :
    (mpWebhook (mpWebhook db n now).1 n now2).1 = (mpWebhook db n now).1 ∧
    countLogs (mpWebhook db n now).1.logs n.external_reference ≤ 1 ∧
    ((mpWebhook db n now).2 = WebhookResponse.processed →
      countLogs (mpWebhook db n now).1.logs n.external_reference = 1 ∧
      (mpWebhook (mpWebhook db n now).1 n now2).2 = WebhookResponse.duplicate) := by
  have hnone : db.logs.find? (logMatches n.external_reference) = none :=
    find?_of_countLogs_zero h0
  by_cases hv : n.valid = true
  · cases hint : db.intents.find? (fun i =>
        i.idempotency_key == some n.external_reference &&
        i.method == PaymentMethod.qr) with
    | none =>
      have heq : mpWebhook db n now = (db, WebhookResponse.intentNotFound) := by
        simp [mpWebhook, hv, hnone, hint]
      have heq2 : mpWebhook db n now2 = (db, WebhookResponse.intentNotFound) := by
        simp [mpWebhook, hv, hnone, hint]
      rw [heq]
      dsimp only
      exact ⟨by rw [heq2], by simp [h0], fun hcontra => by simp at hcontra⟩
    | some intent =>
      by_cases hp : n.mp_status = "paid" ∨ n.mp_status = "closed"
      · have heq : mpWebhook db n now =
            (logWebhook (processSuccessfulPayment db intent n.qr_data now) n now,
             WebhookResponse.processed) := by
          simp [mpWebhook, hv, hnone, hint, hp]
        have hfind2 :=
          logWebhook_find (processSuccessfulPayment db intent n.qr_data now) n now
            (by rw [processSuccessfulPayment_logs]; exact hnone)
        have hdup := mpWebhook_duplicate _ n now2 hv _ hfind2
        rw [heq]
        dsimp only
        refine ⟨by rw [hdup], ?_, fun _ => ⟨?_, by rw [hdup]⟩⟩
        · rw [countLogs_logWebhook, processSuccessfulPayment_logs, h0]
        · rw [countLogs_logWebhook, processSuccessfulPayment_logs, h0]
      · by_cases hcan : n.mp_status = "cancelled"
        · have heq : mpWebhook db n now =
              (logWebhook
                (processCancelledPayment db intent "Customer cancelled payment" now)
                n now,
               WebhookResponse.processed) := by
            simp [mpWebhook, hv, hnone, hint, hp, hcan]
          have hfind2 :=
            logWebhook_find
              (processCancelledPayment db intent "Customer cancelled payment" now)
              n now (by rw [processCancelledPayment_logs]; exact hnone)
          have hdup := mpWebhook_duplicate _ n now2 hv _ hfind2
          rw [heq]
          dsimp only
          refine ⟨by rw [hdup], ?_, fun _ => ⟨?_, by rw [hdup]⟩⟩
          · rw [countLogs_logWebhook, processCancelledPayment_logs, h0]
          · rw [countLogs_logWebhook, processCancelledPayment_logs, h0]
        · by_cases hexp : n.mp_status = "expired"
          · have heq : mpWebhook db n now =
                (logWebhook (processFailedPayment db intent "Payment expired" now)
                  n now,
                 WebhookResponse.processed) := by
              simp [mpWebhook, hv, hnone, hint, hp, hcan, hexp]
            have hfind2 :=
              logWebhook_find (processFailedPayment db intent "Payment expired" now)
                n now (by rw [processFailedPayment_logs]; exact hnone)
            have hdup := mpWebhook_duplicate _ n now2 hv _ hfind2
            rw [heq]
            dsimp only
            refine ⟨by rw [hdup], ?_, fun _ => ⟨?_, by rw [hdup]⟩⟩
            · rw [countLogs_logWebhook, processFailedPayment_logs, h0]
            · rw [countLogs_logWebhook, processFailedPayment_logs, h0]
          · cases hapi : n.api_status with
            | none =>
              have heq : mpWebhook db n now =
                  (logWebhook db n now, WebhookResponse.processed) := by
                simp [mpWebhook, hv, hnone, hint, hp, hcan, hexp, hapi]
              have hfind2 := logWebhook_find db n now hnone
              have hdup := mpWebhook_duplicate _ n now2 hv _ hfind2
              rw [heq]
              dsimp only
              refine ⟨by rw [hdup], ?_, fun _ => ⟨?_, by rw [hdup]⟩⟩
              · rw [countLogs_logWebhook, h0]
              · rw [countLogs_logWebhook, h0]
            | some s =>
              by_cases hs : s = "paid"
              · have heq : mpWebhook db n now =
                    (logWebhook (processSuccessfulPayment db intent n.qr_data now)
                      n now,
                     WebhookResponse.processed) := by
                  simp [mpWebhook, hv, hnone, hint, hp, hcan, hexp, hapi, hs]
                have hfind2 :=
                  logWebhook_find (processSuccessfulPayment db intent n.qr_data now)
                    n now (by rw [processSuccessfulPayment_logs]; exact hnone)
                have hdup := mpWebhook_duplicate _ n now2 hv _ hfind2
                rw [heq]
                dsimp only
                refine ⟨by rw [hdup], ?_, fun _ => ⟨?_, by rw [hdup]⟩⟩
                · rw [countLogs_logWebhook, processSuccessfulPayment_logs, h0]
                · rw [countLogs_logWebhook, processSuccessfulPayment_logs, h0]
              · have heq : mpWebhook db n now =
                    (db, WebhookResponse.statusOnly s) := by
                  simp [mpWebhook, hv, hnone, hint, hp, hcan, hexp, hapi, hs]
                have heq2 : mpWebhook db n now2 =
                    (db, WebhookResponse.statusOnly s) := by
                  simp [mpWebhook, hv, hnone, hint, hp, hcan, hexp, hapi, hs]
                rw [heq]
                dsimp only
                exact ⟨by rw [heq2], by simp [h0],
                       fun hcontra => by simp at hcontra⟩
  · have heq : mpWebhook db n now = (db, WebhookResponse.invalid) := by
      simp [mpWebhook, hv]
    have heq2 : mpWebhook db n now2 = (db, WebhookResponse.invalid) := by
      simp [mpWebhook, hv]
    rw [heq]
    dsimp only
    exact ⟨by rw [heq2], by simp [h0], fun hcontra => by simp at hcontra⟩

/-- C2 witness: the concrete paid notification for ref1 is processed once
and acknowledged as a duplicate the second time, with one log row. -/
theorem c2_webhook_idempotent_witness :
    countLogs webhookDB.logs mpNote.external_reference = 0 ∧
    (mpWebhook webhookDB mpNote 100).2 = WebhookResponse.processed ∧
    ((mpWebhook (mpWebhook webhookDB mpNote 100).1 mpNote 200).1 =
        (mpWebhook webhookDB mpNote 100).1 ∧
      countLogs (mpWebhook webhookDB mpNote 100).1.logs
        mpNote.external_reference ≤ 1 ∧
      ((mpWebhook webhookDB mpNote 100).2 = WebhookResponse.processed →
        countLogs (mpWebhook webhookDB mpNote 100).1.logs
          mpNote.external_reference = 1 ∧
        (mpWebhook (mpWebhook webhookDB mpNote 100).1 mpNote 200).2 =
          WebhookResponse.duplicate)) :=
  ⟨by decide, by decide,
   c2_webhook_idempotent webhookDB mpNote 100 200 (by decide)⟩

/-- C2 counterexample: a valid paid notification whose external reference
matches no payment intent is answered with an error and never logged
(webhooks.py lines 109-111 return before the log insert).  The state is
unchanged, the webhook log holds zero rows for that external_reference —
not one — and the repeat call is answered the same way instead of being
acknowledged as a duplicate. -/
theorem c2_webhook_counterexample :
    (mpWebhook webhookDB mpNoteNoIntent 100).2 =
      WebhookResponse.intentNotFound ∧
    (mpWebhook webhookDB mpNoteNoIntent 100).1 = webhookDB ∧
    countLogs (mpWebhook webhookDB mpNoteNoIntent 100).1.logs
      mpNoteNoIntent.external_reference = 0 ∧
    (mpWebhook (mpWebhook webhookDB mpNoteNoIntent 100).1 mpNoteNoIntent 200).2 ≠
      WebhookResponse.duplicate := by
  refine ⟨by decide, by decide, by decide, by decide⟩
